import Mathlib

/-!
Verification of backend/frontend behavior of the roadmap-generator
repository against its natural-language specification.

The definitions below are a shallow embedding of the JavaScript/TypeScript
source.  JS strings are Lean `String`s, JS arrays are Lean `List`s, absent
(`undefined`/`null`) values are `Option`, numbers that matter are `Nat`,
and thrown exceptions are `Except` errors.  JS truthiness on strings
(`""` is falsy) is modelled explicitly where the source relies on it.
Wall-clock timestamps (`new Date()`) are modelled as explicit `Nat`
parameters; `progress.lastUpdated` (a pure timestamp) is outside the
numeric progress block the specification describes and is not modelled.
-/

namespace RoadmapGen

/-- Decidable equality of results, so concrete route outcomes can be
checked by evaluation. -/
instance {ε α : Type} [DecidableEq ε] [DecidableEq α] : DecidableEq (Except ε α)
  | .ok a, .ok b =>
    if h : a = b then .isTrue (by rw [h]) else .isFalse (fun hc => h (Except.ok.inj hc))
  | .ok _, .error _ => .isFalse (fun hc => Except.noConfusion hc)
  | .error _, .ok _ => .isFalse (fun hc => Except.noConfusion hc)
  | .error e, .error f =>
    if h : e = f then .isTrue (by rw [h]) else .isFalse (fun hc => h (Except.error.inj hc))

/-- JS truthiness of an optional string value: `undefined`, `null` and the
empty string are falsy, every other string is truthy. -/
def truthyStr : Option String → Bool
  | none => false
  | some s => s ≠ ""

/-- Truthy-or-default, the JS idiom `v || d` for optional string values. -/
def orDefaultStr (v : Option String) (d : String) : String :=
  match v with
  | some s => if s = "" then d else s
  | none => d

/-! ## Token service (backend/utils/jwt.js) -/

/-- Decoded JWT payload.  Access tokens carry `id, username, email, role`;
refresh tokens carry only `id` (jwt.js `generateTokens`). -/
structure Payload where
  id : Nat
  username : Option String := none
  email : Option String := none
  role : Option String := none
deriving DecidableEq, Repr

/-- A presented token, as the external `jsonwebtoken` library classifies it:
either it carries a valid signature over a payload (and is expired or not),
or it is malformed / badly signed.  The library itself is out of scope of
the specification and is modelled by this classification. -/
inductive Token where
  | signed (payload : Payload) (expired : Bool)
  | malformed
deriving DecidableEq, Repr

/-- A thrown JS error, as inspected by its `name` property. -/
structure JsError where
  name : String
  message : String
deriving DecidableEq, Repr

/-- Behavior of the external `jsonwebtoken` `jwt.verify`: an expired signed
token throws `TokenExpiredError`, a malformed or badly signed token throws
`JsonWebTokenError`, otherwise the payload is returned. -/
def jwtVerify : Token → Except JsError Payload
  | .signed p false => .ok p
  | .signed _ true => .error ⟨"TokenExpiredError", "jwt expired"⟩
  | .malformed => .error ⟨"JsonWebTokenError", "invalid token"⟩

/-- `verifyToken` (jwt.js lines 61-70): calls `jwt.verify` and catches every
error, rethrowing a plain `new Error('Invalid token')` (whose `name` is
`"Error"`). -/
def verifyToken (t : Token) : Except JsError Payload :=
  match jwtVerify t with
  | .ok p => .ok p
  | .error _ => .error ⟨"Error", "Invalid token"⟩

/-- `verifyRefreshToken` (jwt.js lines 77-93): verifies, then throws if the
decoded payload has a truthy `username` or `email` claim; every throw is
caught and rethrown as a plain `Error('Invalid refresh token')`. -/
def verifyRefreshToken (t : Token) : Except JsError Payload :=
  match jwtVerify t with
  | .ok p =>
      if truthyStr p.username || truthyStr p.email then
        .error ⟨"Error", "Invalid refresh token"⟩
      else .ok p
  | .error _ => .error ⟨"Error", "Invalid refresh token"⟩

/-- A user record, restricted to the claim fields used when minting tokens
(jwt.js `generateTokens`). -/
structure User where
  id : Nat
  username : String
  email : String
  role : String
deriving DecidableEq, Repr

/-- Access-token payload minted by `generateTokens` (jwt.js lines 39-44). -/
def accessPayload (u : User) : Payload :=
  { id := u.id, username := some u.username, email := some u.email,
    role := some u.role }

/-- Refresh-token payload minted by `generateTokens` (jwt.js line 47):
only the `id` claim. -/
def refreshPayload (u : User) : Payload :=
  { id := u.id }

/-- `generateTokens` (jwt.js lines 38-54): a freshly minted, unexpired
access token and refresh token pair for a user. -/
def generateTokens (u : User) : Token × Token :=
  (.signed (accessPayload u) false, .signed (refreshPayload u) false)

/-! ## Auth middleware (backend/middleware/auth.js) -/

/-- `startsWith`, computed on the character list of the strings. -/
def jsStartsWith (s p : String) : Bool :=
  p.data.isPrefixOf s.data

/-- `substring(n)` for an all-ASCII prefix, computed on the character
list. -/
def jsDropChars (s : String) (n : Nat) : String :=
  ⟨s.data.drop n⟩

/-- `extractTokenFromHeader` (jwt.js lines 100-106): take the part after
the `"Bearer "` prefix (7 characters), or null. -/
def extractTokenFromHeader (authHeader : Option String) : Option String :=
  match authHeader with
  | none => none
  | some h => if jsStartsWith h ("Bearer ") then some (jsDropChars h 7) else none

/-- `authenticate` (middleware/auth.js lines 7-68).  `decode` abstracts how
the presented token string verifies against the signing secret (the
`jsonwebtoken` library's view of the string), `findUser` abstracts
`User.findById`.  The error pairs are the HTTP status and the
machine-readable error code of the 401 response. -/
def authenticate (decode : String → Token) (findUser : Nat → Option User)
    (authHeader : Option String) : Except (Nat × String) User :=
  match extractTokenFromHeader authHeader with
  | none => .error (401, "NO_TOKEN")
  | some tokenStr =>
    if tokenStr = "" then .error (401, "NO_TOKEN")
    else
      match verifyToken (decode tokenStr) with
      | .error e =>
          if e.name = "TokenExpiredError" then .error (401, "TOKEN_EXPIRED")
          else if e.name = "JsonWebTokenError" then .error (401, "INVALID_TOKEN")
          else .error (401, "AUTH_FAILED")
      | .ok payload =>
          match findUser payload.id with
          | none => .error (401, "USER_NOT_FOUND")
          | some u => .ok u

/-- Concrete decoding environment for evaluation: the string "expired-tok"
is a well-formed, correctly signed but expired token for user 1; the
string "garbage" fails signature verification. -/
def sampleDecode : String → Token :=
  fun s =>
    if s = "expired-tok" then .signed { id := 1 } true
    else .malformed

/-- Concrete user directory for evaluation: user 1 exists. -/
def sampleFindUser : Nat → Option User :=
  fun n => if n = 1 then some { id := 1, username := "alice", email := "a@b.c", role := "user" } else none

/-! ## Refresh-token list maintenance (backend/routes/auth.js) -/

/-- The login route's refresh-token bookkeeping (routes/auth.js lines
176-184): push the freshly minted refresh token, then, if the list now has
more than 5 entries, keep only the last 5 (`slice(-5)`).  Entries are the
stored token strings (the `createdAt` half of each entry plays no role in
any check). -/
def loginPushRefreshToken (tokens : List String) (t : String) : List String :=
  if (tokens ++ [t]).length > 5 then
    (tokens ++ [t]).drop ((tokens ++ [t]).length - 5)
  else tokens ++ [t]

/-- `tokenExists` check of the refresh route (routes/auth.js lines
239-241): is the presented token string in the user's stored list? -/
def tokenExists (tokens : List String) (t : String) : Bool :=
  tokens.any (fun s => s = t)

/-- The refresh route's stored-list handling after the presented token has
been verified and its user found (routes/auth.js lines 239-262): 401 with
code `INVALID_REFRESH_TOKEN` when the token is not in the stored list,
otherwise the stored list with the presented token replaced by the freshly
minted one. -/
def refreshRotate (tokens : List String) (presented fresh : String) :
    Except (Nat × String) (List String) :=
  if tokenExists tokens presented then
    .ok ((tokens.filter (fun s => s ≠ presented)) ++ [fresh])
  else
    .error (401, "INVALID_REFRESH_TOKEN")

/-- The last five elements of a list (`slice(-5)`); for lists of at most
five elements this is the whole list, by truncated subtraction. -/
def lastFive (l : List String) : List String :=
  l.drop (l.length - 5)

theorem loginPushRefreshToken_eq_lastFive (l : List String) (t : String) :
    loginPushRefreshToken l t = lastFive (l ++ [t]) := by
  unfold loginPushRefreshToken lastFive
  split
  · rfl
  · next h =>
    have hle : (l ++ [t]).length ≤ 5 := by omega
    rw [Nat.sub_eq_zero_of_le hle, List.drop_zero]

theorem lastFive_length_le (l : List String) : (lastFive l).length ≤ 5 := by
  unfold lastFive
  rw [List.length_drop]
  omega

theorem lastFive_append_left (xs ys : List String) :
    lastFive (lastFive xs ++ ys) = lastFive (xs ++ ys) := by
  unfold lastFive
  by_cases h : xs.length ≤ 5
  · rw [Nat.sub_eq_zero_of_le h, List.drop_zero]
  · have hlen : (xs.drop (xs.length - 5)).length = 5 := by
      rw [List.length_drop]; omega
    simp only [List.length_append, hlen]
    have h1 : 5 + ys.length - 5 = ys.length := by omega
    have h2 : xs.length + ys.length - 5 = (xs.length - 5) + ys.length := by omega
    rw [h1, h2]
    rw [← List.drop_drop ys.length (xs.length - 5) (xs ++ ys)]
    rw [List.drop_append_of_le_length (show xs.length - 5 ≤ xs.length by omega)]

theorem lastFive_of_length_le (l : List String) (h : l.length ≤ 5) :
    lastFive l = l := by
  unfold lastFive
  rw [Nat.sub_eq_zero_of_le h, List.drop_zero]

/-- Folding login pushes over a list of freshly issued tokens. -/
def loginFold (l : List String) (ts : List String) : List String :=
  ts.foldl loginPushRefreshToken l

theorem loginFold_eq_lastFive (l : List String) (hl : l.length ≤ 5) :
    ∀ ts : List String, loginFold l ts = lastFive (l ++ ts) := by
  intro ts
  induction ts generalizing l with
  | nil => simp [loginFold, lastFive_of_length_le l hl]
  | cons t ts ih =>
    show loginFold (loginPushRefreshToken l t) ts = _
    rw [ih (loginPushRefreshToken l t)
        (by rw [loginPushRefreshToken_eq_lastFive]; exact lastFive_length_le _)]
    rw [loginPushRefreshToken_eq_lastFive, lastFive_append_left]
    simp

/-! ## Roadmap documents (backend/models/Roadmap.js) -/

/-- A step resource (embedded in a step). -/
structure Resource where
  title : String := ""
  url : String := ""
  resType : String := "article"
deriving DecidableEq, Repr

/-- An estimated time / duration pair. -/
structure EstTime where
  value : Int
  unit : String
deriving DecidableEq, Repr

/-- A step as submitted by a client in a create/update request body; every
field the route does not require may be absent. -/
structure ClientStep where
  id : Option String := none
  title : String := ""
  description : Option String := none
  resources : Option (List Resource) := none
  estimatedTime : Option EstTime := none
  difficulty : Option String := none
  prerequisites : Option (List String) := none
  skills : Option (List String) := none
  isCompleted : Option Bool := none
  completedAt : Option Nat := none
deriving DecidableEq, Repr

/-- A persisted step (Roadmap.js `stepSchema`).  `completedAt` is a wall
clock timestamp, modelled as `Nat`. -/
structure Step where
  id : String
  title : String
  description : String
  resources : List Resource
  estimatedTime : EstTime
  difficulty : String
  prerequisites : List String
  skills : List String
  isCompleted : Bool
  completedAt : Option Nat
  order : Nat
deriving DecidableEq, Repr

/-- The numeric progress block of a roadmap (Roadmap.js `progress`);
`lastUpdated`, a pure timestamp, is not part of the numeric block. -/
structure Progress where
  completedSteps : Nat
  totalSteps : Nat
  percentage : Nat
deriving DecidableEq, Repr

/-- `Math.round((completed / total) * 100)` for `total > 0`, under exact
rational arithmetic: round half away from zero, which for the nonnegative
values here is `⌊100 * completed / total + 1 / 2⌋`. -/
def roundPercent (completed total : Nat) : Nat :=
  (200 * completed + total) / (2 * total)

/-- The progress recomputation of the `pre('save')` hook (Roadmap.js lines
200-209): count completed steps and derive the percentage. -/
def computeProgress (steps : List Step) : Progress :=
  let completed := (steps.filter (fun s => s.isCompleted)).length
  { completedSteps := completed
    totalSteps := steps.length
    percentage :=
      if steps.length > 0 then roundPercent completed steps.length else 0 }

/-- A persisted roadmap document, restricted to the fields the verified
routes read or write. -/
structure RoadmapDoc where
  title : String := ""
  description : String := ""
  topic : String := ""
  difficulty : String := "intermediate"
  steps : List Step := []
  tags : List String := []
  isPublic : Bool := false
  createdBy : Nat := 0
  likes : List Nat := []
  progress : Progress := ⟨0, 0, 0⟩
  createdAt : Nat := 0
deriving DecidableEq, Repr

/-- `save` on a roadmap document: the `pre('save')` hook recomputes the
progress block from the step-completion states (Roadmap.js lines 200-209). -/
def saveRoadmap (r : RoadmapDoc) : RoadmapDoc :=
  { r with progress := computeProgress r.steps }

/-! ## Step processing on create and update (routes/roadmaps.js) -/

/-- One step of the create route's `processedSteps` mapping (POST
/api/roadmaps, lines 282-293): defaults applied, `isCompleted` forced to
`false`, `order` forced to the 1-based index. -/
def processStepCreate (index : Nat) (step : ClientStep) : Step :=
  { id := orDefaultStr step.id ("step-" ++ toString (index + 1))
    title := step.title
    description := step.description.getD ""
    resources := step.resources.getD []
    estimatedTime := step.estimatedTime.getD ⟨1, "hours"⟩
    difficulty := orDefaultStr step.difficulty "intermediate"
    prerequisites := step.prerequisites.getD []
    skills := step.skills.getD []
    isCompleted := false
    completedAt := none
    order := index + 1 }

/-- One step of the update route's `processedSteps` mapping (PUT
/api/roadmaps/:id, lines 351-363): like create, except the client-supplied
`isCompleted` (`step.isCompleted || false`) and `completedAt`
(`step.completedAt || null`) are kept. -/
def processStepUpdate (index : Nat) (step : ClientStep) : Step :=
  { id := orDefaultStr step.id ("step-" ++ toString (index + 1))
    title := step.title
    description := step.description.getD ""
    resources := step.resources.getD []
    estimatedTime := step.estimatedTime.getD ⟨1, "hours"⟩
    difficulty := orDefaultStr step.difficulty "intermediate"
    prerequisites := step.prerequisites.getD []
    skills := step.skills.getD []
    isCompleted := step.isCompleted.getD false
    completedAt := step.completedAt
    order := index + 1 }

/-- Whitespace trimming (`trim()`), computed on the character list. -/
def jsTrim (s : String) : String :=
  ⟨(((s.data.dropWhile Char.isWhitespace).reverse.dropWhile Char.isWhitespace).reverse)⟩

/-- The steps part of `createRoadmapValidation` (routes/roadmaps.js lines
51-57): `steps` must be an array with at least one element, and each
step's trimmed title must be non-empty. -/
def stepsValidation (steps : List ClientStep) : Bool :=
  steps.length ≥ 1 && steps.all (fun s => jsTrim s.title ≠ "")

/-- The create route (POST /api/roadmaps, lines 267-330), restricted to
its steps/progress behavior: failed validation responds 400; otherwise the
processed steps are saved, which runs the progress recomputation hook. -/
def createRoadmap (createdBy : Nat) (steps : List ClientStep) :
    Except Nat RoadmapDoc :=
  if stepsValidation steps then
    .ok (saveRoadmap { createdBy := createdBy, steps := steps.mapIdx processStepCreate })
  else .error 400

/-! ## Step-completion toggle (Roadmap.js lines 212-220, route lines 420-464) -/

/-- Mutate the first step whose `id` matches (`this.steps.find`), setting
its completion flag and timestamp. -/
def setStepCompletion (steps : List Step) (stepId : String) (isCompleted : Bool)
    (now : Nat) : List Step :=
  match steps with
  | [] => []
  | s :: rest =>
    if s.id = stepId then
      { s with isCompleted := isCompleted,
               completedAt := if isCompleted then some now else none } :: rest
    else s :: setStepCompletion rest stepId isCompleted now

/-- `updateStepCompletion` (Roadmap.js lines 212-220): find the step by its
stable id; if present, set its flag and timestamp and save (running the
progress hook); otherwise throw `'Step not found'` without saving. -/
def updateStepCompletion (r : RoadmapDoc) (stepId : String) (isCompleted : Bool)
    (now : Nat) : Except String RoadmapDoc :=
  if r.steps.any (fun s => s.id = stepId) then
    .ok (saveRoadmap { r with steps := setStepCompletion r.steps stepId isCompleted now })
  else .error "Step not found"

/-- The step-completion route (POST /:id/steps/:stepId/complete, lines
420-464): on success respond with the recomputed progress; the
`'Step not found'` throw is mapped to a 404 with code `STEP_NOT_FOUND`. -/
def completeStepRoute (r : RoadmapDoc) (stepId : String) (isCompleted : Bool)
    (now : Nat) : Except (Nat × String) (RoadmapDoc × Progress) :=
  match updateStepCompletion r stepId isCompleted now with
  | .ok r2 => .ok (r2, r2.progress)
  | .error _ => .error (404, "STEP_NOT_FOUND")

/-! ## Like toggle (Roadmap.js lines 222-235, route lines 469-497) -/

/-- `addLike` (Roadmap.js lines 223-229): push the user id unless already
present, then save. -/
def addLike (likes : List Nat) (userId : Nat) : List Nat :=
  if likes.contains userId then likes else likes ++ [userId]

/-- `removeLike` (Roadmap.js lines 232-235): filter out every entry equal
to the user id, then save. -/
def removeLike (likes : List Nat) (userId : Nat) : List Nat :=
  likes.filter (fun i => i ≠ userId)

/-- The like route (POST /:id/like, lines 469-497): flip the requesting
user's membership in the liking list and return `liked` (the new state)
and `likeCount` (the `likeCount` virtual, i.e. the length of the stored
list after the mutation). -/
def toggleLikeRoute (likes : List Nat) (userId : Nat) :
    List Nat × Bool × Nat :=
  let isLiked := likes.contains userId
  let likes2 := if isLiked then removeLike likes userId else addLike likes userId
  (likes2, !isLiked, likes2.length)

/-! ## Listing query construction (routes/roadmaps.js lines 68-150, 238-260) -/

/-- The MongoDB query object the listing route builds. -/
structure ListQuery where
  isPublic : Option Bool := none
  createdBy : Option Nat := none
  search : Option String := none
  difficulty : Option String := none
  tags : Option (List String) := none
deriving Repr

/-- GET /api/roadmaps query construction (lines 95-120): `public=true`
selects public roadmaps, anything else the requester's own; then the
optional search / difficulty / tags filters (JS truthiness on the string
parameters). -/
def buildListQuery (requester : Nat) (publicParam search difficulty : Option String)
    (tags : Option (List String)) : ListQuery :=
  let base : ListQuery :=
    if publicParam = some "true" then { isPublic := some true }
    else { createdBy := some requester }
  { base with
    search := if truthyStr search then search else none
    difficulty := if truthyStr difficulty then difficulty else none
    tags := tags }

/-- Case-insensitive substring test, the effect of the `$regex`/`'i'`
matchers built from plain (non-metacharacter) search strings. -/
def strContains (haystack needle : String) : Bool :=
  decide (List.IsInfix (needle.data.map Char.toLower) (haystack.data.map Char.toLower))

/-- Whether a stored roadmap document matches the query object (the
document database's evaluation of the query, restricted to the operators
the routes use: equality, `$regex` with `'i'`, `$or`, `$in`). -/
def matchesQuery (q : ListQuery) (r : RoadmapDoc) : Bool :=
  (match q.isPublic with | some b => r.isPublic = b | none => true) &&
  (match q.createdBy with | some u => r.createdBy = u | none => true) &&
  (match q.search with
   | some s => strContains r.title s || strContains r.description s || strContains r.topic s
   | none => true) &&
  (match q.difficulty with | some d => r.difficulty = d | none => true) &&
  (match q.tags with
   | some ts => r.tags.any (fun t => ts.contains t)
   | none => true)

/-- Insert into a list sorted by `createdAt` descending, keeping earlier
elements first among ties (stable). -/
def insertByCreatedAtDesc (r : RoadmapDoc) : List RoadmapDoc → List RoadmapDoc
  | [] => [r]
  | x :: xs =>
    if x.createdAt < r.createdAt then r :: x :: xs
    else x :: insertByCreatedAtDesc r xs

/-- The database's `sort({createdAt: -1})`: a stable sort by `createdAt`
descending, modelled as insertion sort. -/
def sortByCreatedAtDesc : List RoadmapDoc → List RoadmapDoc
  | [] => []
  | x :: xs => insertByCreatedAtDesc x (sortByCreatedAtDesc xs)

theorem mem_insertByCreatedAtDesc (a r : RoadmapDoc) (l : List RoadmapDoc) :
    a ∈ insertByCreatedAtDesc r l ↔ a = r ∨ a ∈ l := by
  induction l with
  | nil => simp [insertByCreatedAtDesc]
  | cons x xs ih =>
    by_cases h : x.createdAt < r.createdAt
    · simp [insertByCreatedAtDesc, h]
    · simp only [insertByCreatedAtDesc, if_neg h, List.mem_cons, ih]
      tauto

theorem mem_sortByCreatedAtDesc (a : RoadmapDoc) (l : List RoadmapDoc) :
    a ∈ sortByCreatedAtDesc l ↔ a ∈ l := by
  induction l with
  | nil => simp [sortByCreatedAtDesc]
  | cons x xs ih =>
    simp [sortByCreatedAtDesc, mem_insertByCreatedAtDesc, ih]

/-- GET /api/roadmaps result set (lines 122-129): filter the stored
documents by the built query, sort by `createdAt` descending, then apply
skip/limit pagination. -/
def listRoadmaps (stored : List RoadmapDoc) (requester : Nat)
    (publicParam search difficulty : Option String) (tags : Option (List String))
    (skip limit : Nat) : List RoadmapDoc :=
  let q := buildListQuery requester publicParam search difficulty tags
  (((sortByCreatedAtDesc (stored.filter (matchesQuery q))).drop skip).take limit)

/-- `findPublic` (Roadmap.js lines 238-260): always queries
`isPublic: true`, plus optional topic regex, difficulty and tag filters,
sorted by `createdAt` descending with limit and skip. -/
def findPublic (stored : List RoadmapDoc) (topic difficulty : Option String)
    (tags : Option (List String)) (limit skip : Nat) : List RoadmapDoc :=
  let matchesDoc : RoadmapDoc → Bool := fun r =>
    r.isPublic = true &&
    (match topic with | some t => strContains r.topic t | none => true) &&
    (match difficulty with | some d => r.difficulty = d | none => true) &&
    (match tags with
     | some ts => if ts.length > 0 then r.tags.any (fun t => ts.contains t) else true
     | none => true)
  (((sortByCreatedAtDesc (stored.filter matchesDoc)).drop skip).take limit)

/-! ## LLM response edge processing (src/services/llmApiService.ts) -/

/-- A node of the parsed LLM JSON response, restricted to the fields the
edge processing reads (`node.id`). -/
structure RawNode where
  id : Option String := none
deriving DecidableEq, Repr

/-- An edge object of the parsed LLM JSON response; every field may be
absent. -/
structure RawEdge where
  id : Option String := none
  source : Option String := none
  target : Option String := none
  edgeType : Option String := none
deriving DecidableEq, Repr

/-- A processed roadmap edge (the `RoadmapEdge` shape). -/
structure REdge where
  id : String
  source : String
  target : String
  edgeType : String
deriving DecidableEq, Repr

/-- The realized node id of each response node, `node.id || 'node-' + i`
(`parseRoadmapResponse` line 291; `processEdges` line 218 computes the
same list — `nodes.indexOf(node)` over the distinct objects produced by
`JSON.parse` is the element's own index). -/
def realizedIds (nodes : List RawNode) : List String :=
  nodes.mapIdx (fun i n => orDefaultStr n.id ("node-" ++ toString i))

/-- `generateSequentialEdges` (llmApiService.ts lines 248-264): one edge
from each node to its successor, in response order. -/
def generateSequentialEdges (nodes : List RawNode) : List REdge :=
  let ids := realizedIds nodes
  (List.range (nodes.length - 1)).map fun i =>
    { id := "edge-" ++ toString i
      source := ids.getD i ""
      target := ids.getD (i + 1) ""
      edgeType := "smoothstep" }

/-- The edge-validation pass of `processEdges` (lines 217-237): keep an
edge only when its `source` and `target` are truthy, both are realized
node ids, and they differ; defaults are applied to `id` and `type`. -/
def validatedEdges (edges : List RawEdge) (nodes : List RawNode) : List REdge :=
  let nodeIds := realizedIds nodes
  (edges.enum.filterMap fun p =>
    let idx := p.1
    let e := p.2
    let src := e.source.getD ""
    let tgt := e.target.getD ""
    if truthyStr e.source && truthyStr e.target &&
        nodeIds.contains src && nodeIds.contains tgt && src ≠ tgt then
      some { id := orDefaultStr e.id ("edge-" ++ toString idx)
             source := src, target := tgt
             edgeType := orDefaultStr e.edgeType "smoothstep" }
    else none)

/-- `processEdges` (llmApiService.ts lines 209-246): a missing or
non-array `edges` field (`none`) falls back to the sequential chain, as
does an edge list whose validation pass keeps nothing. -/
def processEdges (edges : Option (List RawEdge)) (nodes : List RawNode) :
    List REdge :=
  match edges with
  | none => generateSequentialEdges nodes
  | some es =>
    let valid := validatedEdges es nodes
    if valid.length > 0 then valid else generateSequentialEdges nodes

/-! ## Graph renderer (RoadmapRenderer in the frontend sources) -/

/-- A client-side roadmap node as the renderer consumes it (id, type,
position, display data). -/
structure ClientNode where
  id : String
  nodeType : String
  posX : Int
  posY : Int
  label : String
deriving DecidableEq, Repr

/-- The client-side roadmap held in the store: nodes plus edges. -/
structure ClientRoadmap where
  nodes : List ClientNode
  edges : List REdge
deriving DecidableEq, Repr

/-- A React Flow node as built by the renderer; the two store callbacks
wired into each node's `data` (`onNodeClick`, used by the click handler
to open the chat, and `onStatusChange`, used by the right-click /
shift-click handlers) are carried abstractly. -/
structure FlowNode (H S : Type) where
  id : String
  nodeType : String
  posX : Int
  posY : Int
  label : String
  onNodeClick : H
  onStatusChange : S

/-- `initialNodes` of `RoadmapRenderer` (lines 678-700): map every node of
the current roadmap into a React Flow node, attaching the store's
`openChat` and `updateNodeStatus` callbacks to its data. -/
def rendererInitialNodes {H S : Type} (openChat : H) (updateNodeStatus : S)
    (r : ClientRoadmap) : List (FlowNode H S) :=
  r.nodes.map fun n =>
    { id := n.id, nodeType := n.nodeType, posX := n.posX, posY := n.posY,
      label := n.label, onNodeClick := openChat, onStatusChange := updateNodeStatus }

/-- `initialEdges` of `RoadmapRenderer` (lines 702-705): the renderer
returns an empty array regardless of the roadmap ("Remove all edges to
show nodes separately"), so the widget is handed no edges. -/
def rendererInitialEdges (_r : ClientRoadmap) : List REdge :=
  []

/-! ## Claim theorems -/

/-- C1: evaluation of the auth middleware at the failing inputs.  The
claim says an expired token yields code `TOKEN_EXPIRED` and a malformed
one `INVALID_TOKEN`; but `verifyToken` rethrows every `jwt.verify` error
as a plain `Error` (whose `name` is `"Error"`), so the middleware's
`TokenExpiredError` and `JsonWebTokenError` branches are unreachable and
both causes fall through to the generic `AUTH_FAILED` code.  The
`NO_TOKEN` and `USER_NOT_FOUND` causes behave as claimed. -/
theorem authenticate_expired_token_yields_generic_code :
    authenticate sampleDecode sampleFindUser (some "Bearer expired-tok")
      = .error (401, "AUTH_FAILED") ∧
    authenticate sampleDecode sampleFindUser (some "Bearer garbage")
      = .error (401, "AUTH_FAILED") ∧
    authenticate sampleDecode sampleFindUser none
      = .error (401, "NO_TOKEN") := by
  refine ⟨?_, ?_, ?_⟩ <;> decide

/-- C2: the minted refresh token carries only the `id` claim and verifies
to a payload with no username/email/role; refresh-token verification
throws on any (signed, in-date or expired) token whose decoded payload
carries a non-empty `username` or `email` claim (the check is JS
truthiness, and server-minted access tokens always carry the registered,
validated non-empty username and email); hence the minted access token,
presented as a refresh token, is rejected. -/
theorem refresh_token_minimal_and_access_token_rejected (u : User)
    (hu : u.username ≠ "") :
    (generateTokens u).2 = Token.signed { id := u.id } false ∧
    verifyRefreshToken (generateTokens u).2 = .ok { id := u.id } ∧
    (∀ (p : Payload) (expired : Bool),
       (truthyStr p.username || truthyStr p.email) = true →
       verifyRefreshToken (.signed p expired)
         = .error ⟨"Error", "Invalid refresh token"⟩) ∧
    verifyRefreshToken (generateTokens u).1
      = .error ⟨"Error", "Invalid refresh token"⟩ := by
  refine ⟨rfl, rfl, ?_, ?_⟩
  · intro p expired h
    cases expired with
    | true => rfl
    | false =>
      simp only [verifyRefreshToken, jwtVerify]
      rw [if_pos h]
  · simp only [generateTokens, verifyRefreshToken, jwtVerify, accessPayload]
    rw [if_pos]
    simp [truthyStr, hu]

/-- Witness for C2 at a concrete registered user. -/
theorem refresh_token_minimal_witness :
    verifyRefreshToken (generateTokens ⟨1, "alice", "a@b.c", "user"⟩).1
      = .error ⟨"Error", "Invalid refresh token"⟩ :=
  (refresh_token_minimal_and_access_token_rejected
    ⟨1, "alice", "a@b.c", "user"⟩ (by decide)).2.2.2

/-- C3: after six successive logins, whatever the earlier stored list was,
the stored refresh-token list is exactly the five most recently issued
tokens, and presenting the evicted first token to the refresh route's
stored-list check yields the 401 `INVALID_REFRESH_TOKEN` rejection
(the evicted token is a distinct token string from the five kept ones). -/
theorem six_logins_keep_last_five (l : List String)
    (t1 t2 t3 t4 t5 t6 fresh : String)
    (hdist : t1 ∉ [t2, t3, t4, t5, t6]) :
    loginFold l [t1, t2, t3, t4, t5, t6] = [t2, t3, t4, t5, t6] ∧
    refreshRotate (loginFold l [t1, t2, t3, t4, t5, t6]) t1 fresh
      = .error (401, "INVALID_REFRESH_TOKEN") := by
  have key : loginFold l [t1, t2, t3, t4, t5, t6] = [t2, t3, t4, t5, t6] := by
    have h1 : loginFold l [t1, t2, t3, t4, t5, t6]
        = loginFold (loginPushRefreshToken l t1) [t2, t3, t4, t5, t6] := by
      unfold loginFold
      rw [List.foldl_cons]
    rw [h1, loginFold_eq_lastFive (loginPushRefreshToken l t1)
      (by rw [loginPushRefreshToken_eq_lastFive]; exact lastFive_length_le _)]
    rw [loginPushRefreshToken_eq_lastFive, lastFive_append_left]
    have h2 : l ++ [t1] ++ [t2, t3, t4, t5, t6] = l ++ [t1, t2, t3, t4, t5, t6] := by
      simp
    rw [h2]
    unfold lastFive
    have h3 : (l ++ [t1, t2, t3, t4, t5, t6]).length - 5 = l.length + 1 := by
      simp
    rw [h3, ← List.drop_drop 1 l.length, List.drop_left]
    rfl
  refine ⟨key, ?_⟩
  rw [key]
  unfold refreshRotate
  have hex : tokenExists [t2, t3, t4, t5, t6] t1 = false := by
    simp only [List.mem_cons, List.not_mem_nil, or_false, not_or] at hdist
    obtain ⟨h2, h3, h4, h5, h6⟩ := hdist
    simp [tokenExists, Ne.symm h2, Ne.symm h3, Ne.symm h4, Ne.symm h5, Ne.symm h6]
  rw [hex]
  simp

/-- Witness for C3 with six distinct concrete token strings. -/
theorem six_logins_keep_last_five_witness :
    loginFold [] ["ta", "tb", "tc", "td", "te", "tf"]
      = ["tb", "tc", "td", "te", "tf"] ∧
    refreshRotate (loginFold [] ["ta", "tb", "tc", "td", "te", "tf"]) "ta" "tg"
      = .error (401, "INVALID_REFRESH_TOKEN") :=
  six_logins_keep_last_five [] "ta" "tb" "tc" "td" "te" "tf" "tg" (by decide)

theorem mapIdx_processStepCreate_isCompleted (steps : List ClientStep) :
    ∀ s ∈ steps.mapIdx processStepCreate, s.isCompleted = false := by
  intro s hs
  rw [List.mapIdx_eq_enum_map] at hs
  obtain ⟨p, _, hp⟩ := List.mem_map.mp hs
  rw [← hp]
  rfl

theorem roundPercent_zero (n : Nat) (h : 0 < n) : roundPercent 0 n = 0 := by
  unfold roundPercent
  rw [Nat.mul_zero, Nat.zero_add]
  exact Nat.div_eq_of_lt (by omega)

/-- C4: a creation request with an empty steps array fails validation and
is rejected with status 400; any successful creation with the submitted
steps list persists a roadmap whose progress block is
`completedSteps = 0`, `totalSteps = N`, `percentage = 0` for `N` the
number of submitted steps. -/
theorem create_empty_rejected_and_initial_progress_zero (createdBy : Nat)
    (steps : List ClientStep) :
    (steps = [] → createRoadmap createdBy steps = .error 400) ∧
    (∀ r : RoadmapDoc, createRoadmap createdBy steps = .ok r →
       r.progress = ⟨0, steps.length, 0⟩) := by
  constructor
  · intro h
    subst h
    rfl
  · intro r hr
    unfold createRoadmap at hr
    by_cases hv : stepsValidation steps = true
    · rw [if_pos hv] at hr
      have hval : steps.length ≥ 1 := by
        unfold stepsValidation at hv
        simp only [Bool.and_eq_true, decide_eq_true_eq] at hv
        exact hv.1
      injection hr with hr2
      subst hr2
      show (saveRoadmap _).progress = _
      unfold saveRoadmap computeProgress
      have hnil : (steps.mapIdx processStepCreate).filter (fun s => s.isCompleted) = [] := by
        rw [List.filter_eq_nil_iff]
        intro s hs
        rw [mapIdx_processStepCreate_isCompleted steps s hs]
        simp
      have hlen : (steps.mapIdx processStepCreate).length = steps.length := by
        simp
      simp only [hnil, hlen, List.length_nil]
      have hpos : steps.length > 0 := hval
      rw [if_pos hpos, roundPercent_zero steps.length hpos]
    · rw [if_neg hv] at hr
      cases hr

/-- A concrete one-step client submission. -/
def sampleClientStep : ClientStep :=
  { id := some "s1", title := "Learn basics" }

/-- The document a successful one-step creation persists. -/
def sampleCreatedDoc : RoadmapDoc :=
  saveRoadmap { createdBy := 7, steps := [sampleClientStep].mapIdx processStepCreate }

/-- Witness for C4: the empty submission is rejected and a one-step
submission yields the zeroed progress block with `totalSteps = 1`. -/
theorem create_empty_rejected_witness :
    createRoadmap 7 [] = Except.error 400 ∧
    sampleCreatedDoc.progress = ⟨0, 1, 0⟩ :=
  ⟨(create_empty_rejected_and_initial_progress_zero 7 []).1 rfl,
   (create_empty_rejected_and_initial_progress_zero 7 [sampleClientStep]).2
     sampleCreatedDoc (by decide)⟩

theorem setStepCompletion_length (steps : List Step) (k : String) (b : Bool)
    (n : Nat) : (setStepCompletion steps k b n).length = steps.length := by
  induction steps with
  | nil => rfl
  | cons s rest ih =>
    by_cases hs : s.id = k
    · simp [setStepCompletion, hs]
    · simp [setStepCompletion, hs, ih]

theorem setStepCompletion_any_id (steps : List Step) (k k2 : String) (b : Bool)
    (n : Nat) :
    (setStepCompletion steps k b n).any (fun s => s.id = k2)
      = steps.any (fun s => s.id = k2) := by
  induction steps with
  | nil => rfl
  | cons s rest ih =>
    by_cases hs : s.id = k
    · simp [setStepCompletion, hs]
    · simp [setStepCompletion, hs, ih]

theorem filter_isCompleted_double_toggle (steps : List Step) (k : String)
    (n1 n2 : Nat) (h : ∀ s ∈ steps, s.id = k → s.isCompleted = false) :
    ((setStepCompletion (setStepCompletion steps k true n1) k false n2).filter
        (fun s => s.isCompleted)).length
      = (steps.filter (fun s => s.isCompleted)).length := by
  induction steps with
  | nil => rfl
  | cons s rest ih =>
    by_cases hs : s.id = k
    · have hsf : s.isCompleted = false := h s (List.mem_cons_self s rest) hs
      simp [setStepCompletion, hs, List.filter, hsf]
    · have ih2 := ih (fun x hx hid => h x (List.mem_cons_of_mem s hx) hid)
      simp only [setStepCompletion, if_neg hs]
      simp only [List.filter]
      cases hc : s.isCompleted <;> simp [ih2]

theorem computeProgress_congr (a b : List Step) (hlen : a.length = b.length)
    (hcnt : (a.filter (fun s => s.isCompleted)).length
      = (b.filter (fun s => s.isCompleted)).length) :
    computeProgress a = computeProgress b := by
  unfold computeProgress
  rw [hlen, hcnt]

/-- The step-completion route's updated document, defaulting to the
unchanged document on error (used to chain concrete evaluations). -/
def routeStepDoc (r : RoadmapDoc) (stepId : String) (b : Bool) (now : Nat) :
    RoadmapDoc :=
  match completeStepRoute r stepId b now with
  | .ok p => p.1
  | .error _ => r

/-- A roadmap whose single step is already complete, with its progress
block in the saved (recomputed) state. -/
def c5AlreadyCompleteDoc : RoadmapDoc :=
  { steps := [{ id := "s1", title := "t", description := "",
                resources := [], estimatedTime := ⟨1, "hours"⟩,
                difficulty := "intermediate", prerequisites := [],
                skills := [], isCompleted := true, completedAt := some 10,
                order := 1 }],
    progress := ⟨1, 1, 100⟩ }

/-- C5 counterexample: on a roadmap whose step `k` is already complete,
toggling `k` to complete and then back to incomplete does NOT restore the
progress block to its prior value (it ends at 0 of 1, 0 percent instead of
1 of 1, 100 percent), so the claim's unconditional revert fails. -/
theorem step_toggle_back_not_always_restoring :
    (routeStepDoc (routeStepDoc c5AlreadyCompleteDoc "s1" true 11) "s1" false 12).progress
      ≠ c5AlreadyCompleteDoc.progress := by
  decide

/-- C5 (amended): for a step id `k` present in the step list and not yet
complete, toggling `k` to complete recomputes the stored percentage as
`round(100 * completedSteps / N)` with `completedSteps` counted after the
toggle and `N` the step count, and toggling `k` back to incomplete
restores the numeric progress block `(completedSteps, totalSteps,
percentage)` exactly; toggling an id not present in the step list yields a
404 with code `STEP_NOT_FOUND` and nothing saved. -/
theorem step_toggle_percentage_and_revert (r : RoadmapDoc) (k : String)
    (n1 n2 : Nat)
    (hk : r.steps.any (fun s => s.id = k) = true)
    (hsync : r.progress = computeProgress r.steps)
    (hinc : ∀ s ∈ r.steps, s.id = k → s.isCompleted = false) :
    (∀ r2 prog2, completeStepRoute r k true n1 = .ok (r2, prog2) →
       prog2.percentage
           = roundPercent ((r2.steps.filter (fun s => s.isCompleted)).length)
               r.steps.length ∧
       prog2.totalSteps = r.steps.length ∧
       (∀ r3 prog3, completeStepRoute r2 k false n2 = .ok (r3, prog3) →
          prog3 = r.progress ∧ r3.progress = r.progress)) ∧
    (∀ k2, r.steps.any (fun s => s.id = k2) = false →
       completeStepRoute r k2 true n1 = .error (404, "STEP_NOT_FOUND")) := by
  have hne : r.steps.length > 0 := by
    rcases List.any_eq_true.mp hk with ⟨x, hx, _⟩
    exact List.length_pos.mpr (List.ne_nil_of_mem hx)
  constructor
  · intro r2 prog2 h2
    unfold completeStepRoute updateStepCompletion at h2
    rw [if_pos hk] at h2
    simp only at h2
    injection h2 with h2p
    rw [Prod.mk.injEq] at h2p
    obtain ⟨hr2, hp2⟩ := h2p
    subst hr2
    subst hp2
    refine ⟨?_, ?_, ?_⟩
    · show (computeProgress (setStepCompletion r.steps k true n1)).percentage = _
      unfold computeProgress
      simp only
      rw [if_pos (by rw [setStepCompletion_length]; exact hne)]
      rw [setStepCompletion_length]
      rfl
    · show (computeProgress (setStepCompletion r.steps k true n1)).totalSteps = _
      unfold computeProgress
      simp only
      rw [setStepCompletion_length]
    · intro r3 prog3 h3
      unfold completeStepRoute updateStepCompletion saveRoadmap at h3
      simp only at h3
      rw [setStepCompletion_any_id, if_pos hk] at h3
      simp only at h3
      injection h3 with h3p
      rw [Prod.mk.injEq] at h3p
      obtain ⟨hr3, hp3⟩ := h3p
      subst hr3
      subst hp3
      have hfinal :
          computeProgress (setStepCompletion (setStepCompletion r.steps k true n1) k false n2)
            = r.progress := by
        rw [hsync]
        apply computeProgress_congr
        · rw [setStepCompletion_length, setStepCompletion_length]
        · exact filter_isCompleted_double_toggle r.steps k n1 n2 hinc
      exact ⟨hfinal, hfinal⟩
  · intro k2 hk2
    unfold completeStepRoute updateStepCompletion
    rw [if_neg (by rw [hk2]; exact Bool.false_ne_true)]

/-- A roadmap with one incomplete step, in the saved state. -/
def c5IncompleteDoc : RoadmapDoc :=
  { steps := [{ id := "s1", title := "t", description := "",
                resources := [], estimatedTime := ⟨1, "hours"⟩,
                difficulty := "intermediate", prerequisites := [],
                skills := [], isCompleted := false, completedAt := none,
                order := 1 }],
    progress := ⟨0, 1, 0⟩ }

/-- Witness for the amended C5 at a concrete one-step roadmap: the unknown
step id "zz" is rejected with a 404. -/
theorem step_toggle_witness :
    completeStepRoute c5IncompleteDoc "zz" true 0
      = Except.error (404, "STEP_NOT_FOUND") :=
  (step_toggle_percentage_and_revert c5IncompleteDoc "s1" 0 0 (by decide)
    (by decide) (by decide)).2 "zz" (by decide)

theorem map_getD_range {α : Type} (l : List α) (d : α) :
    ∀ k, k ≤ l.length → (List.range k).map (fun i => l.getD i d) = l.take k := by
  intro k
  induction k with
  | zero => intro _; simp
  | succ k ih =>
    intro hk
    rw [List.range_succ, List.map_append, ih (Nat.le_of_succ_le hk)]
    simp only [List.map_cons, List.map_nil]
    have hlt : k < l.length := hk
    rw [List.getD_eq_getElem l d hlt]
    exact List.take_concat_get' l k hlt

theorem realizedIds_length (nodes : List RawNode) :
    (realizedIds nodes).length = nodes.length := by
  unfold realizedIds
  simp

/-- C6: whenever the parsed response's `edges` field is absent or not an
array (`none`), or is an array in which no edge has truthy endpoints that
are both realized node ids and distinct, the processed edge list is
exactly the sequential chain over the generated nodes in response order:
n-1 edges whose sources are all but the last realized id and whose targets
are all but the first, in order. -/
theorem no_usable_edges_sequential_chain (edges : Option (List RawEdge))
    (nodes : List RawNode) (hn : nodes ≠ [])
    (hinv : ∀ es, edges = some es → validatedEdges es nodes = []) :
    processEdges edges nodes = generateSequentialEdges nodes ∧
    (processEdges edges nodes).length = nodes.length - 1 ∧
    (processEdges edges nodes).map (fun e => e.source)
      = (realizedIds nodes).dropLast ∧
    (processEdges edges nodes).map (fun e => e.target)
      = (realizedIds nodes).drop 1 := by
  have hpe : processEdges edges nodes = generateSequentialEdges nodes := by
    cases edges with
    | none => rfl
    | some es =>
      have hv := hinv es rfl
      simp [processEdges, hv]
  have hidlen : (realizedIds nodes).length = nodes.length := realizedIds_length nodes
  have hsub : nodes.length - 1 ≤ (realizedIds nodes).length := by
    rw [hidlen]; omega
  refine ⟨hpe, ?_, ?_, ?_⟩
  · rw [hpe]
    unfold generateSequentialEdges
    simp
  · rw [hpe]
    unfold generateSequentialEdges
    simp only [List.map_map]
    have hcomp :
        ((fun e : REdge => e.source) ∘ fun i =>
            { id := "edge-" ++ toString i,
              source := (realizedIds nodes).getD i "",
              target := (realizedIds nodes).getD (i + 1) "",
              edgeType := "smoothstep" : REdge })
          = fun i => (realizedIds nodes).getD i "" := rfl
    rw [hcomp, map_getD_range (realizedIds nodes) "" (nodes.length - 1) hsub]
    rw [List.dropLast_eq_take, hidlen]
  · rw [hpe]
    unfold generateSequentialEdges
    simp only [List.map_map]
    have hcomp :
        ((fun e : REdge => e.target) ∘ fun i =>
            { id := "edge-" ++ toString i,
              source := (realizedIds nodes).getD i "",
              target := (realizedIds nodes).getD (i + 1) "",
              edgeType := "smoothstep" : REdge })
          = fun i => ((realizedIds nodes).drop 1).getD i "" := by
      funext i
      show (realizedIds nodes).getD (i + 1) "" = ((realizedIds nodes).drop 1).getD i ""
      rw [List.getD_eq_getElem?_getD, List.getD_eq_getElem?_getD,
        List.getElem?_drop, Nat.add_comm 1 i]
    rw [hcomp]
    have hlen1 : ((realizedIds nodes).drop 1).length = nodes.length - 1 := by
      rw [List.length_drop, hidlen]
    rw [map_getD_range ((realizedIds nodes).drop 1) "" (nodes.length - 1) (by omega)]
    rw [← hlen1, List.take_length]

/-- Concrete response nodes for the C6 witness. -/
def c6Nodes : List RawNode :=
  [{ id := some "a" }, { id := none }, { id := some "c" }]

/-- Concrete response edges for the C6 witness: one dangling edge (its
target names no realized node id). -/
def c6Edges : List RawEdge :=
  [{ id := some "e1", source := some "a", target := some "zz" }]

/-- Witness for C6: a three-node response with only a dangling edge yields
the two-edge sequential chain a -> node-1 -> c. -/
theorem no_usable_edges_sequential_chain_witness :
    processEdges (some c6Edges) c6Nodes = generateSequentialEdges c6Nodes ∧
    (processEdges (some c6Edges) c6Nodes).map (fun e => e.source)
      = ["a", "node-1"] ∧
    (processEdges (some c6Edges) c6Nodes).map (fun e => e.target)
      = ["node-1", "c"] := by
  have h := no_usable_edges_sequential_chain (some c6Edges) c6Nodes (by decide)
    (by intro es hes; injection hes with h2; rw [← h2]; decide)
  refine ⟨h.1, ?_, ?_⟩
  · rw [h.2.2.1]; decide
  · rw [h.2.2.2]; decide

theorem filter_ne_of_not_mem (l : List Nat) (u : Nat) (h : u ∉ l) :
    l.filter (fun i => i ≠ u) = l := by
  rw [List.filter_eq_self]
  intro b hb
  simp only [decide_eq_true_eq]
  exact fun hbu => h (hbu ▸ hb)

theorem filter_ne_append_perm (l : List Nat) (u : Nat) (hnd : l.Nodup)
    (hm : u ∈ l) : ((l.filter (fun i => i ≠ u)) ++ [u]).Perm l := by
  induction l with
  | nil => cases hm
  | cons a rest ih =>
    by_cases ha : a = u
    · subst ha
      have hnr : a ∉ rest := (List.nodup_cons.mp hnd).1
      simp only [List.filter_cons, decide_eq_true_eq]
      rw [if_neg (by simp)]
      rw [filter_ne_of_not_mem rest a hnr]
      exact List.perm_append_singleton a rest
    · have hm2 : u ∈ rest := by
        rcases List.mem_cons.mp hm with h | h
        · exact absurd h.symm ha
        · exact h
      have ih2 := ih (List.nodup_cons.mp hnd).2 hm2
      simp only [List.filter_cons, decide_eq_true_eq]
      rw [if_pos (by simp [ha])]
      rw [List.cons_append]
      exact ih2.cons a

theorem not_mem_filter_ne (l : List Nat) (u : Nat) :
    u ∉ l.filter (fun i => i ≠ u) := by
  intro h
  have := List.of_mem_filter h
  simp at this

/-- C7: a second like call by the same user undoes the first (the stored
liking-user list returns to a permutation of its initial state, i.e. the
same set); the returned `likeCount` equals the length of the stored list
after each call; and the stored list never acquires a duplicate user id. -/
theorem like_toggle_involutive (likes : List Nat) (u : Nat)
    (hnd : likes.Nodup) :
    ((toggleLikeRoute (toggleLikeRoute likes u).1 u).1).Perm likes ∧
    (toggleLikeRoute likes u).2.2 = (toggleLikeRoute likes u).1.length ∧
    ((toggleLikeRoute likes u).1).Nodup := by
  refine ⟨?_, rfl, ?_⟩
  · by_cases hmem : u ∈ likes
    · have hc : likes.contains u = true := List.elem_iff.mpr hmem
      have hnm2 : u ∉ removeLike likes u := not_mem_filter_ne likes u
      have h1 : (toggleLikeRoute likes u).1 = removeLike likes u := by
        simp [toggleLikeRoute, hc, hmem]
      rw [h1]
      have h2 : (toggleLikeRoute (removeLike likes u) u).1
          = addLike (removeLike likes u) u := by
        simp [toggleLikeRoute, hnm2]
      rw [h2]
      have h3 : addLike (removeLike likes u) u = removeLike likes u ++ [u] := by
        unfold addLike
        rw [if_neg (by simpa [List.elem_iff] using hnm2)]
      rw [h3]
      exact filter_ne_append_perm likes u hnd hmem
    · have hc : likes.contains u = false := by
        rw [Bool.eq_false_iff]
        intro habs
        exact hmem (List.elem_iff.mp habs)
      have h1 : (toggleLikeRoute likes u).1 = likes ++ [u] := by
        simp [toggleLikeRoute, hc, hmem, addLike]
      rw [h1]
      have hmem2 : u ∈ likes ++ [u] := by simp
      have h2 : (toggleLikeRoute (likes ++ [u]) u).1
          = removeLike (likes ++ [u]) u := by
        simp [toggleLikeRoute, hmem2]
      rw [h2]
      unfold removeLike
      rw [List.filter_append, filter_ne_of_not_mem likes u hmem]
      simp
  · by_cases hmem : u ∈ likes
    · have hc : likes.contains u = true := List.elem_iff.mpr hmem
      have h1 : (toggleLikeRoute likes u).1 = removeLike likes u := by
        simp [toggleLikeRoute, hc, hmem]
      rw [h1]
      exact hnd.filter _
    · have hc : likes.contains u = false := by
        rw [Bool.eq_false_iff]
        intro habs
        exact hmem (List.elem_iff.mp habs)
      have h1 : (toggleLikeRoute likes u).1 = likes ++ [u] := by
        simp [toggleLikeRoute, hc, hmem, addLike]
      rw [h1]
      simp [List.nodup_append, hnd, hmem]

/-- Witness for C7 on a concrete two-element liking list. -/
theorem like_toggle_involutive_witness :
    ((toggleLikeRoute (toggleLikeRoute [3, 5] 5).1 5).1).Perm [3, 5] :=
  (like_toggle_involutive [3, 5] 5 (by decide)).1

/-- C8: every roadmap in the result set of a listing request with
`public=true` has `isPublic = true`, whoever the requester is, both for
the authenticated listing route's query construction and for the
`findPublic` static used by the anonymous listing route. -/
theorem public_listing_only_public (stored : List RoadmapDoc) (requester : Nat)
    (search difficulty : Option String) (tags : Option (List String))
    (skip limit : Nat) :
    (∀ r ∈ listRoadmaps stored requester (some "true") search difficulty tags
        skip limit, r.isPublic = true) ∧
    (∀ (topic : Option String) (r : RoadmapDoc),
       r ∈ findPublic stored topic difficulty tags limit skip →
       r.isPublic = true) := by
  have hq : buildListQuery requester (some "true") search difficulty tags
      = { isPublic := some true, createdBy := none,
          search := if truthyStr search then search else none,
          difficulty := if truthyStr difficulty then difficulty else none,
          tags := tags } := by
    unfold buildListQuery
    rw [if_pos rfl]
  constructor
  · intro r hr
    unfold listRoadmaps at hr
    have h1 : r ∈ stored.filter
        (matchesQuery (buildListQuery requester (some "true") search difficulty tags)) :=
      (mem_sortByCreatedAtDesc r _).mp
        (List.mem_of_mem_drop (List.mem_of_mem_take hr))
    have h2 := (List.mem_filter.mp h1).2
    rw [hq] at h2
    unfold matchesQuery at h2
    simp only [Bool.and_eq_true] at h2
    exact of_decide_eq_true h2.1.1.1.1
  · intro topic r hr
    unfold findPublic at hr
    simp only at hr
    have h1 := (mem_sortByCreatedAtDesc r _).mp
      (List.mem_of_mem_drop (List.mem_of_mem_take hr))
    have h2 := (List.mem_filter.mp h1).2
    simp only [Bool.and_eq_true] at h2
    exact of_decide_eq_true h2.1.1.1

/-- A concrete stored collection with one public and one private roadmap. -/
def c8Stored : List RoadmapDoc :=
  [{ title := "pub", isPublic := true, createdBy := 1, createdAt := 2 },
   { title := "priv", isPublic := false, createdBy := 1, createdAt := 3 }]

/-- Witness for C8: in the concrete collection, the public roadmap is in
the `public=true` result set and the theorem certifies its `isPublic`. -/
theorem public_listing_only_public_witness :
    ({ title := "pub", isPublic := true, createdBy := 1,
       createdAt := 2 } : RoadmapDoc).isPublic = true :=
  (public_listing_only_public c8Stored 9 none none none 0 20).1
    { title := "pub", isPublic := true, createdBy := 1, createdAt := 2 }
    (by decide)

/-- A concrete client-side roadmap with two nodes and one persisted edge. -/
def c9Roadmap : ClientRoadmap :=
  { nodes := [{ id := "n1", nodeType := "topic", posX := 0, posY := 0, label := "A" },
              { id := "n2", nodeType := "topic", posX := 0, posY := 100, label := "B" }],
    edges := [{ id := "e1", source := "n1", target := "n2", edgeType := "smoothstep" }] }

/-- C9 counterexample: the renderer hands the diagram widget an empty edge
list even when the roadmap has a persisted edge, so the widget's edges are
not in one-to-one correspondence with the persisted edge list. -/
theorem renderer_discards_persisted_edges :
    rendererInitialEdges c9Roadmap = [] ∧
    c9Roadmap.edges.length = 1 ∧
    (rendererInitialEdges c9Roadmap).length ≠ c9Roadmap.edges.length := by
  decide

/-- C9 (amended): the renderer maps each persisted node one-to-one into a
widget node carrying the node's id/type/position/label and the two store
callbacks (`openChat` for click, `updateNodeStatus` for the right-click and
shift-click status toggles); the edge list handed to the widget, however,
is always empty — persisted edges are deliberately not mapped. -/
theorem renderer_maps_nodes_attaches_handlers_no_edges {H S : Type}
    (openChat : H) (updateNodeStatus : S) (r : ClientRoadmap) :
    (rendererInitialNodes openChat updateNodeStatus r).map
        (fun n => (n.id, n.nodeType, n.posX, n.posY, n.label))
      = r.nodes.map (fun n => (n.id, n.nodeType, n.posX, n.posY, n.label)) ∧
    (rendererInitialNodes openChat updateNodeStatus r).map (fun n => n.onNodeClick)
      = r.nodes.map (fun _ => openChat) ∧
    (rendererInitialNodes openChat updateNodeStatus r).map (fun n => n.onStatusChange)
      = r.nodes.map (fun _ => updateNodeStatus) ∧
    rendererInitialEdges r = [] := by
  refine ⟨?_, ?_, ?_, rfl⟩ <;>
    (unfold rendererInitialNodes; rw [List.map_map]; rfl)

/-- C10: the create route's step processing forces `isCompleted := false`
and `order := index + 1` on every persisted step, whatever the client
submitted, while the update route's step processing preserves the
client-supplied `isCompleted` flag (defaulting an absent one to `false`)
and likewise restamps sequential orders. -/
theorem create_forces_incomplete_update_preserves_flags (steps : List ClientStep) :
    (steps.mapIdx processStepCreate).map (fun s => s.isCompleted)
      = steps.map (fun _ => false) ∧
    (steps.mapIdx processStepCreate).map (fun s => s.order)
      = (List.range steps.length).map (fun i => i + 1) ∧
    (steps.mapIdx processStepUpdate).map (fun s => s.isCompleted)
      = steps.map (fun s => s.isCompleted.getD false) ∧
    (steps.mapIdx processStepUpdate).map (fun s => s.order)
      = (List.range steps.length).map (fun i => i + 1) := by
  refine ⟨?_, ?_, ?_, ?_⟩
  · conv_rhs => rw [← List.enum_map_snd steps]
    rw [List.mapIdx_eq_enum_map, List.map_map, List.map_map]
    rfl
  · conv_rhs => rw [← List.enum_map_fst steps]
    rw [List.mapIdx_eq_enum_map, List.map_map, List.map_map]
    rfl
  · conv_rhs => rw [← List.enum_map_snd steps]
    rw [List.mapIdx_eq_enum_map, List.map_map, List.map_map]
    rfl
  · conv_rhs => rw [← List.enum_map_fst steps]
    rw [List.mapIdx_eq_enum_map, List.map_map, List.map_map]
    rfl

/-- Witness for the amended C9 at the concrete roadmap, with `Nat`-coded
store callbacks. -/
theorem renderer_maps_nodes_witness :
    (rendererInitialNodes (1 : Nat) (2 : Nat) c9Roadmap).map
        (fun n => (n.id, n.nodeType, n.posX, n.posY, n.label))
      = c9Roadmap.nodes.map (fun n => (n.id, n.nodeType, n.posX, n.posY, n.label)) :=
  (renderer_maps_nodes_attaches_handlers_no_edges 1 2 c9Roadmap).1

/-- A client step submitted with `isCompleted := true`. -/
def c10Step : ClientStep :=
  { title := "a", isCompleted := some true }

/-- Witness for C10: a pre-completed submitted step is persisted
incomplete by the create processing but completed by the update
processing. -/
theorem create_forces_incomplete_witness :
    ([c10Step].mapIdx processStepCreate).map (fun s => s.isCompleted) = [false] ∧
    ([c10Step].mapIdx processStepUpdate).map (fun s => s.isCompleted) = [true] :=
  ⟨(create_forces_incomplete_update_preserves_flags [c10Step]).1,
   (create_forces_incomplete_update_preserves_flags [c10Step]).2.2.1⟩

end RoadmapGen
